import Mathlib

/-!
Verification of the `secure` HTTP security-header library.

This file gives a shallow embedding, in Lean, of the header builders in
`src/secure/headers/`, the `Secure` aggregator in `src/secure/secure.py`,
and the response-application protocol (`set_headers` / `set_headers_async`),
and proves properties of that embedding.

Conventions of the embedding:
* Python dataclasses become Lean structures whose fields mirror the
  dataclass fields (defaults are given by a `new` definition standing for
  the zero-argument constructor call).
* A Python method that can raise returns `Except PyErr _`; a method that
  never raises is a total function.
* Python `str.join` is `joinSep`; Python `dict` insertion (last write wins,
  first-insertion position kept) is `dictInsert`.
-/

namespace SecureHeaders

/-- The Python exception classes that the modelled code can raise. -/
inductive PyErr where
  | valueError (msg : String)
  | attributeError (msg : String)
  | runtimeError (msg : String)
  | typeError (msg : String)
deriving DecidableEq, Repr

/-- Python `sep.join(ss)`. -/
def joinSep (sep : String) : List String → String
  | [] => ""
  | [x] => x
  | x :: y :: xs => x ++ sep ++ joinSep sep (y :: xs)

/-- Python `d[k] = v` on an insertion-ordered `dict`: if the key is present
its value is replaced in place, otherwise the pair is appended. -/
def dictInsert : List (String × String) → String → String → List (String × String)
  | [], k, v => [(k, v)]
  | (k₂, v₂) :: rest, k, v =>
    if k₂ = k then (k, v) :: rest else (k₂, v₂) :: dictInsert rest k v

/-! ## `CacheControl` (src/secure/headers/cache_control.py) -/

/-- The `CacheControl` dataclass: `header_name`, `_directives`, `_default_value`. -/
structure CacheControl where
  header_name : String
  _directives : List String
  _default_value : String
deriving DecidableEq, Repr

/-- `CacheControl()`: default field values of the dataclass. -/
def CacheControl.new : CacheControl :=
  ⟨"Cache-Control", [], "no-store"⟩

/-- `CacheControl.header_value`: join with `", "`, or the default when empty. -/
def CacheControl.header_value (c : CacheControl) : String :=
  match c._directives with
  | [] => c._default_value
  | _ => joinSep ", " c._directives

/-- `CacheControl._build`: append the directive unless already present. -/
def CacheControl.build (c : CacheControl) (directive : String) : CacheControl :=
  if directive ∈ c._directives then c
  else { c with _directives := c._directives ++ [directive] }

/-- `CacheControl.set`: replace the whole directive list with the value. -/
def CacheControl.set (c : CacheControl) (value : String) : CacheControl :=
  { c with _directives := [value] }

/-- `CacheControl.clear`: empty the directive list. -/
def CacheControl.clear (c : CacheControl) : CacheControl :=
  { c with _directives := [] }

/-- `CacheControl.max_age`: raises `ValueError` on negative seconds,
otherwise adds `max-age={seconds}`. -/
def CacheControl.max_age (c : CacheControl) (seconds : Int) : Except PyErr CacheControl :=
  if seconds < 0 then .error (.valueError "seconds must be a non-negative integer")
  else .ok (c.build ("max-age=" ++ toString seconds))

/-- `CacheControl.no_store`: add the `no-store` directive. -/
def CacheControl.no_store (c : CacheControl) : CacheControl :=
  c.build "no-store"

/-! ## `StrictTransportSecurity` (src/secure/headers/strict_transport_security.py) -/

/-- The `StrictTransportSecurity` dataclass. -/
structure StrictTransportSecurity where
  header_name : String
  _directives : List String
  _default_value : String
deriving DecidableEq, Repr

/-- `StrictTransportSecurity()`. -/
def StrictTransportSecurity.new : StrictTransportSecurity :=
  ⟨"Strict-Transport-Security", [], "max-age=31536000"⟩

/-- `StrictTransportSecurity.header_value`: join with `"; "`, or the default. -/
def StrictTransportSecurity.header_value (h : StrictTransportSecurity) : String :=
  match h._directives with
  | [] => h._default_value
  | _ => joinSep "; " h._directives

/-- `StrictTransportSecurity._build`: append unless already present. -/
def StrictTransportSecurity.build (h : StrictTransportSecurity) (directive : String) :
    StrictTransportSecurity :=
  if directive ∈ h._directives then h
  else { h with _directives := h._directives ++ [directive] }

/-- `StrictTransportSecurity.set`: replace the whole directive list. -/
def StrictTransportSecurity.set (h : StrictTransportSecurity) (value : String) :
    StrictTransportSecurity :=
  { h with _directives := [value] }

/-- `StrictTransportSecurity.clear`: empty the directive list. -/
def StrictTransportSecurity.clear (h : StrictTransportSecurity) : StrictTransportSecurity :=
  { h with _directives := [] }

/-- `StrictTransportSecurity.max_age`: adds `max-age={seconds}`.
The source performs no range check on `seconds` and raises nothing. -/
def StrictTransportSecurity.max_age (h : StrictTransportSecurity) (seconds : Int) :
    StrictTransportSecurity :=
  h.build ("max-age=" ++ toString seconds)

/-- `StrictTransportSecurity.include_subdomains`. -/
def StrictTransportSecurity.include_subdomains (h : StrictTransportSecurity) :
    StrictTransportSecurity :=
  h.build "includeSubDomains"

/-- `StrictTransportSecurity.preload`. -/
def StrictTransportSecurity.preload (h : StrictTransportSecurity) : StrictTransportSecurity :=
  h.build "preload"

/-! ## `ReferrerPolicy` (src/secure/headers/referrer_policy.py) -/

/-- The `ReferrerPolicy` dataclass. -/
structure ReferrerPolicy where
  header_name : String
  _directives : List String
  _default_value : String
deriving DecidableEq, Repr

/-- `ReferrerPolicy()`. -/
def ReferrerPolicy.new : ReferrerPolicy :=
  ⟨"Referrer-Policy", [], "strict-origin-when-cross-origin"⟩

/-- `ReferrerPolicy.header_value`: join with `", "`, or the default. -/
def ReferrerPolicy.header_value (r : ReferrerPolicy) : String :=
  match r._directives with
  | [] => r._default_value
  | _ => joinSep ", " r._directives

/-- `ReferrerPolicy._build`: append unless already present. -/
def ReferrerPolicy.build (r : ReferrerPolicy) (directive : String) : ReferrerPolicy :=
  if directive ∈ r._directives then r
  else { r with _directives := r._directives ++ [directive] }

/-- `ReferrerPolicy.set`: the source delegates to `_build`, so the value is
appended as one more directive; the directive list is not replaced. -/
def ReferrerPolicy.set (r : ReferrerPolicy) (value : String) : ReferrerPolicy :=
  r.build value

/-- `ReferrerPolicy.clear`: empty the directive list. -/
def ReferrerPolicy.clear (r : ReferrerPolicy) : ReferrerPolicy :=
  { r with _directives := [] }

/-- `ReferrerPolicy.no_referrer` = `set("no-referrer")`. -/
def ReferrerPolicy.no_referrer (r : ReferrerPolicy) : ReferrerPolicy :=
  r.set "no-referrer"

/-- `ReferrerPolicy.no_referrer_when_downgrade` = `set("no-referrer-when-downgrade")`. -/
def ReferrerPolicy.no_referrer_when_downgrade (r : ReferrerPolicy) : ReferrerPolicy :=
  r.set "no-referrer-when-downgrade"

/-- `ReferrerPolicy.origin` = `set("origin")`. -/
def ReferrerPolicy.origin (r : ReferrerPolicy) : ReferrerPolicy :=
  r.set "origin"

/-! ## `XFrameOptions` (src/secure/headers/x_frame_options.py) -/

/-- The `XFrameOptions` dataclass: a single `_value`, no directive list. -/
structure XFrameOptions where
  header_name : String
  _value : String
deriving DecidableEq, Repr

/-- `XFrameOptions()`. -/
def XFrameOptions.new : XFrameOptions :=
  ⟨"X-Frame-Options", "SAMEORIGIN"⟩

/-- `XFrameOptions.header_value`. -/
def XFrameOptions.header_value (x : XFrameOptions) : String :=
  x._value

/-- `XFrameOptions.set`. -/
def XFrameOptions.set (x : XFrameOptions) (value : String) : XFrameOptions :=
  { x with _value := value }

/-- `XFrameOptions.clear`: reset to the default value. -/
def XFrameOptions.clear (x : XFrameOptions) : XFrameOptions :=
  { x with _value := "SAMEORIGIN" }

/-- `XFrameOptions.deny`. -/
def XFrameOptions.deny (x : XFrameOptions) : XFrameOptions :=
  { x with _value := "DENY" }

/-- `XFrameOptions.sameorigin`. -/
def XFrameOptions.sameorigin (x : XFrameOptions) : XFrameOptions :=
  { x with _value := "SAMEORIGIN" }

/-! ## `XContentTypeOptions` (src/secure/headers/x_content_type_options.py) -/

/-- The `XContentTypeOptions` dataclass. -/
structure XContentTypeOptions where
  header_name : String
  _value : String
deriving DecidableEq, Repr

/-- `XContentTypeOptions()`. -/
def XContentTypeOptions.new : XContentTypeOptions :=
  ⟨"X-Content-Type-Options", "nosniff"⟩

/-- `XContentTypeOptions.header_value`. -/
def XContentTypeOptions.header_value (x : XContentTypeOptions) : String :=
  x._value

/-- `XContentTypeOptions.set`. -/
def XContentTypeOptions.set (x : XContentTypeOptions) (value : String) : XContentTypeOptions :=
  { x with _value := value }

/-- `XContentTypeOptions.clear`: reset to the default value. -/
def XContentTypeOptions.clear (x : XContentTypeOptions) : XContentTypeOptions :=
  { x with _value := "nosniff" }

/-- `XContentTypeOptions.nosniff`. -/
def XContentTypeOptions.nosniff (x : XContentTypeOptions) : XContentTypeOptions :=
  { x with _value := "nosniff" }

/-! ## `Server` (src/secure/headers/server.py) -/

/-- The `Server` dataclass. -/
structure Server where
  header_name : String
  _value : String
deriving DecidableEq, Repr

/-- `Server()`. -/
def Server.new : Server :=
  ⟨"Server", ""⟩

/-- `Server.header_value`. -/
def Server.header_value (s : Server) : String :=
  s._value

/-- `Server.set`. -/
def Server.set (s : Server) (value : String) : Server :=
  { s with _value := value }

/-- `Server.clear`: reset to the default (empty) value. -/
def Server.clear (s : Server) : Server :=
  { s with _value := "" }

/-! ## `CrossOriginOpenerPolicy` (src/secure/headers/cross_origin_opener_policy.py) -/

/-- The `CrossOriginOpenerPolicy` dataclass: a single `_directive`. -/
structure CrossOriginOpenerPolicy where
  header_name : String
  _directive : String
deriving DecidableEq, Repr

/-- `CrossOriginOpenerPolicy()`. -/
def CrossOriginOpenerPolicy.new : CrossOriginOpenerPolicy :=
  ⟨"Cross-Origin-Opener-Policy", "same-origin"⟩

/-- `CrossOriginOpenerPolicy.header_value`. -/
def CrossOriginOpenerPolicy.header_value (c : CrossOriginOpenerPolicy) : String :=
  c._directive

/-- `CrossOriginOpenerPolicy.set`. -/
def CrossOriginOpenerPolicy.set (c : CrossOriginOpenerPolicy) (value : String) :
    CrossOriginOpenerPolicy :=
  { c with _directive := value }

/-- `CrossOriginOpenerPolicy.clear`: reset to the default value. -/
def CrossOriginOpenerPolicy.clear (c : CrossOriginOpenerPolicy) : CrossOriginOpenerPolicy :=
  { c with _directive := "same-origin" }

/-! ## `CrossOriginEmbedderPolicy` (src/secure/headers/cross_origin_embedder_policy.py) -/

/-- The `CrossOriginEmbedderPolicy` dataclass: a single `_directive`. -/
structure CrossOriginEmbedderPolicy where
  header_name : String
  _directive : String
deriving DecidableEq, Repr

/-- `CrossOriginEmbedderPolicy()`. -/
def CrossOriginEmbedderPolicy.new : CrossOriginEmbedderPolicy :=
  ⟨"Cross-Origin-Embedder-Policy", "require-corp"⟩

/-- `CrossOriginEmbedderPolicy.header_value`. -/
def CrossOriginEmbedderPolicy.header_value (c : CrossOriginEmbedderPolicy) : String :=
  c._directive

/-- `CrossOriginEmbedderPolicy.set`. -/
def CrossOriginEmbedderPolicy.set (c : CrossOriginEmbedderPolicy) (value : String) :
    CrossOriginEmbedderPolicy :=
  { c with _directive := value }

/-- `CrossOriginEmbedderPolicy.clear`: reset to the default value. -/
def CrossOriginEmbedderPolicy.clear (c : CrossOriginEmbedderPolicy) : CrossOriginEmbedderPolicy :=
  { c with _directive := "require-corp" }

/-! ## `PermissionsPolicy` (src/secure/headers/permissions_policy.py) -/

/-- The `PermissionsPolicy` dataclass. -/
structure PermissionsPolicy where
  header_name : String
  _directives : List String
  _default_value : String
deriving DecidableEq, Repr

/-- `PermissionsPolicy()`. -/
def PermissionsPolicy.new : PermissionsPolicy :=
  ⟨"Permissions-Policy", [], "geolocation=(), microphone=(), camera=()"⟩

/-- `PermissionsPolicy.header_value`: join with `", "`, or the default. -/
def PermissionsPolicy.header_value (p : PermissionsPolicy) : String :=
  match p._directives with
  | [] => p._default_value
  | _ => joinSep ", " p._directives

/-- `PermissionsPolicy._build`: always appends `directive=(joined sources)`;
no duplicate check. -/
def PermissionsPolicy.build (p : PermissionsPolicy) (directive : String)
    (sources : List String) : PermissionsPolicy :=
  { p with _directives := p._directives ++ [directive ++ "=(" ++ joinSep " " sources ++ ")"] }

/-- `PermissionsPolicy.set`: the source delegates to `_build(value)` with no
sources, so the literal is appended rendered as `value=()`; the directive
list is not replaced. -/
def PermissionsPolicy.set (p : PermissionsPolicy) (value : String) : PermissionsPolicy :=
  p.build value []

/-- `PermissionsPolicy.clear`: empty the directive list. -/
def PermissionsPolicy.clear (p : PermissionsPolicy) : PermissionsPolicy :=
  { p with _directives := [] }

/-- `PermissionsPolicy.camera`. -/
def PermissionsPolicy.camera (p : PermissionsPolicy) (allowlist : List String) :
    PermissionsPolicy :=
  p.build "camera" allowlist

/-- `PermissionsPolicy.microphone`. -/
def PermissionsPolicy.microphone (p : PermissionsPolicy) (allowlist : List String) :
    PermissionsPolicy :=
  p.build "microphone" allowlist

/-! ## `ContentSecurityPolicy` (src/secure/headers/content_security_policy.py)

This is the class actually exported by the `secure.headers` package. Unlike
the dataclass builders above it is a plain class whose attributes are
`header` and `value` (not `header_name` / `header_value`), it keeps its
directive tokens in `__policy`, and it defines no `clear` method. -/

/-- The legacy `ContentSecurityPolicy` class: fields `__policy`, `header`, `value`. -/
structure ContentSecurityPolicy where
  policy : List String
  header : String
  value : String
deriving DecidableEq, Repr

/-- `ContentSecurityPolicy()`: empty policy, canonical header name, and a
prepopulated `value` string that the first `_build` call discards. -/
def ContentSecurityPolicy.new : ContentSecurityPolicy :=
  ⟨[], "Content-Security-Policy", "script-src \x27self\x27; object-src \x27self\x27"⟩

/-- `ContentSecurityPolicy._build`: append `directive` (with its sources,
space-joined, when any) to `__policy` and recompute `value` as the
`"; "`-join of the whole policy. -/
def ContentSecurityPolicy.build (c : ContentSecurityPolicy) (directive : String)
    (sources : List String) : ContentSecurityPolicy :=
  let entry := match sources with
    | [] => directive
    | _ => directive ++ " " ++ joinSep " " sources
  { c with policy := c.policy ++ [entry], value := joinSep "; " (c.policy ++ [entry]) }

/-- `ContentSecurityPolicy.set`: the source delegates to `_build(value)`, so
the literal is appended as one more policy entry, not a replacement. -/
def ContentSecurityPolicy.set (c : ContentSecurityPolicy) (value : String) :
    ContentSecurityPolicy :=
  c.build value []

/-- `ContentSecurityPolicy.default_src`. -/
def ContentSecurityPolicy.default_src (c : ContentSecurityPolicy) (sources : List String) :
    ContentSecurityPolicy :=
  c.build "default-src" sources

/-- `ContentSecurityPolicy.report_only`: switch the header identity. -/
def ContentSecurityPolicy.report_only (c : ContentSecurityPolicy) : ContentSecurityPolicy :=
  { c with header := "Content-Security-Policy-Report-Only" }

/-! ## `CustomHeader` (src/secure/headers/custom_header.py) -/

/-- The `CustomHeader` class: a name and a value, no directive list. -/
structure CustomHeader where
  header_name : String
  _value : String
deriving DecidableEq, Repr

/-- `CustomHeader.header_value`. -/
def CustomHeader.header_value (c : CustomHeader) : String :=
  c._value

/-- `CustomHeader.set`. -/
def CustomHeader.set (c : CustomHeader) (value : String) : CustomHeader :=
  { c with _value := value }

/-! ## The aggregator `Secure` (src/secure/secure.py) -/

/-- One element of `Secure.headers_list`. Python keeps the concrete builder
objects in one heterogeneous list; the sum type records which class each
element is, so that attribute access can be resolved per class. -/
inductive HeaderObj where
  | server (s : Server)
  | hsts (h : StrictTransportSecurity)
  | xfo (x : XFrameOptions)
  | content (x : XContentTypeOptions)
  | csp (c : ContentSecurityPolicy)
  | referrer (r : ReferrerPolicy)
  | cache (c : CacheControl)
  | permissions (p : PermissionsPolicy)
  | coop (c : CrossOriginOpenerPolicy)
  | ceop (c : CrossOriginEmbedderPolicy)
  | custom (c : CustomHeader)
deriving DecidableEq, Repr

/-- The `AttributeError` message for `csp.header_name`. -/
def cspNoHeaderNameMsg : String :=
  "\x27ContentSecurityPolicy\x27 object has no attribute \x27header_name\x27"

/-- The `AttributeError` message for `csp.header_value`. -/
def cspNoHeaderValueMsg : String :=
  "\x27ContentSecurityPolicy\x27 object has no attribute \x27header_value\x27"

/-- The `AttributeError` message for `csp.clear`. -/
def cspNoClearMsg : String :=
  "\x27ContentSecurityPolicy\x27 object has no attribute \x27clear\x27"

/-- The `AttributeError` message for `custom_header.clear`. -/
def customNoClearMsg : String :=
  "\x27CustomHeader\x27 object has no attribute \x27clear\x27"

/-- Python attribute access `header.header_name`. Every builder class except
the legacy `ContentSecurityPolicy` defines `header_name`; on the legacy class
(whose attribute is named `header`) the access raises `AttributeError`. -/
def HeaderObj.headerNameE : HeaderObj → Except PyErr String
  | .server s => .ok s.header_name
  | .hsts h => .ok h.header_name
  | .xfo x => .ok x.header_name
  | .content x => .ok x.header_name
  | .csp _ => .error (.attributeError cspNoHeaderNameMsg)
  | .referrer r => .ok r.header_name
  | .cache c => .ok c.header_name
  | .permissions p => .ok p.header_name
  | .coop c => .ok c.header_name
  | .ceop c => .ok c.header_name
  | .custom c => .ok c.header_name

/-- Python attribute access `header.header_value`. Same situation: the legacy
`ContentSecurityPolicy` has a `value` attribute but no `header_value`. -/
def HeaderObj.headerValueE : HeaderObj → Except PyErr String
  | .server s => .ok s.header_value
  | .hsts h => .ok h.header_value
  | .xfo x => .ok x.header_value
  | .content x => .ok x.header_value
  | .csp _ => .error (.attributeError cspNoHeaderValueMsg)
  | .referrer r => .ok r.header_value
  | .cache c => .ok c.header_value
  | .permissions p => .ok p.header_value
  | .coop c => .ok c.header_value
  | .ceop c => .ok c.header_value
  | .custom c => .ok c.header_value

/-- Python method call `builder.clear()` resolved over the builder family.
Every dataclass builder defines `clear`; the legacy `ContentSecurityPolicy`
and `CustomHeader` define no such method, so the lookup raises
`AttributeError`. -/
def HeaderObj.clearE : HeaderObj → Except PyErr HeaderObj
  | .server s => .ok (.server s.clear)
  | .hsts h => .ok (.hsts h.clear)
  | .xfo x => .ok (.xfo x.clear)
  | .content x => .ok (.content x.clear)
  | .csp _ => .error (.attributeError cspNoClearMsg)
  | .referrer r => .ok (.referrer r.clear)
  | .cache c => .ok (.cache c.clear)
  | .permissions p => .ok (.permissions p.clear)
  | .coop c => .ok (.coop c.clear)
  | .ceop c => .ok (.ceop c.clear)
  | .custom _ => .error (.attributeError customNoClearMsg)

/-- The `Secure` aggregator: its single slot `headers_list`. -/
structure Secure where
  headers_list : List HeaderObj
deriving DecidableEq, Repr

/-- `Secure.__init__`: collect the non-`None` keyword arguments in their
declaration order `(server, hsts, xfo, content, csp, referrer, cache,
permissions, coop, ceop)`, then extend with the custom headers. -/
def Secure.make (server : Option Server) (hsts : Option StrictTransportSecurity)
    (xfo : Option XFrameOptions) (content : Option XContentTypeOptions)
    (csp : Option ContentSecurityPolicy) (referrer : Option ReferrerPolicy)
    (cache : Option CacheControl) (permissions : Option PermissionsPolicy)
    (coop : Option CrossOriginOpenerPolicy) (ceop : Option CrossOriginEmbedderPolicy)
    (custom : List CustomHeader) : Secure :=
  ⟨(([server.map .server, hsts.map .hsts, xfo.map .xfo, content.map .content,
      csp.map .csp, referrer.map .referrer, cache.map .cache,
      permissions.map .permissions, coop.map .coop,
      ceop.map .ceop].reduceOption) : List HeaderObj) ++ custom.map .custom⟩

/-- `Secure.with_default_headers`. -/
def Secure.with_default_headers : Secure :=
  Secure.make none (some ((StrictTransportSecurity.new.max_age 31536000).include_subdomains))
    (some XFrameOptions.new.deny) (some XContentTypeOptions.new.nosniff)
    (some (ContentSecurityPolicy.new.default_src ["\x27self\x27"]))
    (some ReferrerPolicy.new.no_referrer_when_downgrade) none
    (some ((PermissionsPolicy.new.camera ["\x27none\x27"]).microphone ["\x27none\x27"]))
    none none []

/-- The `Preset` enumeration. -/
inductive Preset where
  | basic
  | strict
deriving DecidableEq, Repr

/-- `Secure.from_preset`. -/
def Secure.from_preset : Preset → Secure
  | .basic =>
    Secure.make none (some (StrictTransportSecurity.new.max_age 63072000))
      (some XFrameOptions.new.sameorigin) none none
      (some ReferrerPolicy.new.no_referrer_when_downgrade) none none none none []
  | .strict =>
    Secure.make none
      (some (((StrictTransportSecurity.new.max_age 31536000).include_subdomains).preload))
      (some XFrameOptions.new.deny) none
      (some (ContentSecurityPolicy.new.default_src ["\x27self\x27"]))
      (some ReferrerPolicy.new.no_referrer) none none none none []

/-- The generator inside `Secure.__str__`: for each configured header, read
`header_name` and then `header_value` (either access can raise on the legacy
`ContentSecurityPolicy`) and produce the `"name: value"` line; the first
exception propagates. -/
def Secure.strLines : List HeaderObj → Except PyErr (List String)
  | [] => .ok []
  | h :: rest =>
    match h.headerNameE with
    | .error e => .error e
    | .ok n =>
      match h.headerValueE with
      | .error e => .error e
      | .ok v =>
        match Secure.strLines rest with
        | .error e => .error e
        | .ok lines => .ok ((n ++ ": " ++ v) :: lines)

/-- `Secure.__str__`: newline-join of the per-header lines. -/
def Secure.strE (s : Secure) : Except PyErr String :=
  match Secure.strLines s.headers_list with
  | .error e => .error e
  | .ok lines => .ok (joinSep "\n" lines)

/-- The dict comprehension in the body of the `headers` property:
`{header.header_name: header.header_value for header in self.headers_list}`
(the key expression is evaluated before the value expression). -/
def Secure.renderLoop : List HeaderObj → List (String × String) →
    Except PyErr (List (String × String))
  | [], acc => .ok acc
  | h :: rest, acc =>
    match h.headerNameE with
    | .error e => .error e
    | .ok n =>
      match h.headerValueE with
      | .error e => .error e
      | .ok v => Secure.renderLoop rest (dictInsert acc n v)

/-- The mapping the `headers` property body would compute. -/
def Secure.renderHeaders (s : Secure) : Except PyErr (List (String × String)) :=
  Secure.renderLoop s.headers_list []

/-- The `TypeError` message `functools.cached_property.__get__` raises when
the instance has no `__dict__` to cache into. -/
def slotsCacheMsg : String :=
  "No \x27__dict__\x27 attribute on \x27Secure\x27 instance to cache \x27headers\x27 property."

/-- Whether `Secure` instances carry an instance `__dict__`. The class
declares `__slots__ = ("headers_list",)` and no `__dict__` slot, so they do
not. -/
def Secure.hasInstanceDict : Bool := false

/-- The `headers` property access: `functools.cached_property.__get__` first
fetches the instance `__dict__` to use as the cache; because `Secure` uses
`__slots__`, that lookup fails and the descriptor raises `TypeError` before
the property body ever runs. -/
def Secure.headersProp (s : Secure) : Except PyErr (List (String × String)) :=
  if Secure.hasInstanceDict then s.renderHeaders
  else .error (.typeError slotsCacheMsg)

/-! ## The response-application protocol -/

/-- A response-like object as `set_headers` sees it: which of the two
capabilities it exposes (`set_header` method, `headers` mapping), whether the
setter is a coroutine function, the mapping contents, and the record of
`set_header` invocations in call order. -/
structure Response where
  typeName : String
  hasSetHeader : Bool
  setHeaderIsAsync : Bool
  hasHeadersAttr : Bool
  headers : List (String × String)
  setCalls : List (String × String)
deriving DecidableEq, Repr

/-- The `RuntimeError` message of the synchronous entry point. -/
def syncViolationMsg : String :=
  "Encountered asynchronous \x27set_header\x27 in synchronous context."

/-- The `AttributeError` message for a response with neither capability. -/
def unsupportedMsg (typeName : String) : String :=
  "Response object of type \x27" ++ typeName ++ "\x27 does not support setting headers."

/-- The loop body of `Secure.set_headers` over an already-rendered header
list: per header, prefer `set_header` (raising `RuntimeError` if it is a
coroutine function), fall back to the `headers` mapping, and raise
`AttributeError` when neither capability exists. -/
def Secure.applySync : List (String × String) → Response → Except PyErr Response
  | [], r => .ok r
  | (n, v) :: rest, r =>
    if r.hasSetHeader then
      if r.setHeaderIsAsync then
        .error (.runtimeError syncViolationMsg)
      else
        Secure.applySync rest { r with setCalls := r.setCalls ++ [(n, v)] }
    else if r.hasHeadersAttr then
      Secure.applySync rest { r with headers := dictInsert r.headers n v }
    else
      .error (.attributeError (unsupportedMsg r.typeName))

/-- The loop body of `Secure.set_headers_async`: identical selection logic,
but an asynchronous `set_header` is awaited instead of rejected. -/
def Secure.applyAsync : List (String × String) → Response → Except PyErr Response
  | [], r => .ok r
  | (n, v) :: rest, r =>
    if r.hasSetHeader then
      Secure.applyAsync rest { r with setCalls := r.setCalls ++ [(n, v)] }
    else if r.hasHeadersAttr then
      Secure.applyAsync rest { r with headers := dictInsert r.headers n v }
    else
      .error (.attributeError (unsupportedMsg r.typeName))

/-- `Secure.set_headers`: iterate over `self.headers.items()` (which first
triggers the `headers` property access) applying each header synchronously. -/
def Secure.set_headers (s : Secure) (r : Response) : Except PyErr Response :=
  match s.headersProp with
  | .error e => .error e
  | .ok hs => Secure.applySync hs r

/-- `Secure.set_headers_async`: same, with the asynchronous discipline. -/
def Secure.set_headers_async (s : Secure) (r : Response) : Except PyErr Response :=
  match s.headersProp with
  | .error e => .error e
  | .ok hs => Secure.applyAsync hs r

/-! ## Concrete fixtures used by the theorems below

These mirror the mock response objects of the repository test-suite
(`tests/secure/test_secure.py`). -/

/-- A response exposing both capabilities, with a synchronous `set_header`
(the test-suite class `MockResponseWithBoth`). -/
def bothResponse : Response :=
  ⟨"MockResponseWithBoth", true, false, true, [], []⟩

/-- A response whose `set_header` is a coroutine function (the test-suite
class `MockResponseAsyncSetHeader`). -/
def asyncResponse : Response :=
  ⟨"MockResponseAsyncSetHeader", true, true, true, [], []⟩

/-- A bare `object()` exposing neither capability. -/
def bareResponse : Response :=
  ⟨"object", false, false, false, [], []⟩

/-- `Secure(custom=[CustomHeader("X-A", "1")])`. -/
def xaSecure : Secure :=
  Secure.make none none none none none none none none none none [⟨"X-A", "1"⟩]

/-- `ContentSecurityPolicy().default_src("'self'")`. -/
def cspSelf : ContentSecurityPolicy :=
  ContentSecurityPolicy.new.default_src ["\x27self\x27"]

/-- The aggregator of the test `test_headers_list_property`:
`Secure(server=Server().set("CustomServer"), csp=ContentSecurityPolicy()
.default_src("'self'"), custom=[CustomHeader("X-Test-Header", "TestValue")])`. -/
def serverCspCustomSecure : Secure :=
  Secure.make (some (Server.new.set "CustomServer")) none none none (some cspSelf)
    none none none none none [⟨"X-Test-Header", "TestValue"⟩]

/-- `Secure(hsts=StrictTransportSecurity().max_age(63072000),
xfo=XFrameOptions().deny(), custom=[CustomHeader("X-A", "1"),
CustomHeader("X-B", "2")])`. -/
def hstsXfoCustomSecure : Secure :=
  Secure.make none (some (StrictTransportSecurity.new.max_age 63072000))
    (some XFrameOptions.new.deny) none none none none none none none
    [⟨"X-A", "1"⟩, ⟨"X-B", "2"⟩]

/-- `Secure(server=Server(), cache=CacheControl())`. -/
def serverCacheSecure : Secure :=
  Secure.make (some Server.new) none none none none none (some CacheControl.new)
    none none none []

/-!## Helper lemmas -/

/-- On a response with a synchronous `set_header`, the synchronous loop body
records every header through the setter, in order, and touches nothing else. -/
theorem applySync_setter_ok : ∀ (hs : List (String × String)) (r : Response),
    r.hasSetHeader = true → r.setHeaderIsAsync = false →
    Secure.applySync hs r = .ok { r with setCalls := r.setCalls ++ hs }
  | [], r, _, _ => by simp [Secure.applySync]
  | (n, v) :: rest, r, hset, hsync => by
    obtain ⟨tn, hsh, sha, hha, hm, sc⟩ := r
    replace hset : hsh = true := hset
    replace hsync : sha = false := hsync
    subst hset
    subst hsync
    have ih := applySync_setter_ok rest ⟨tn, true, false, hha, hm, sc ++ [(n, v)]⟩ rfl rfl
    simp [Secure.applySync, ih, List.append_assoc]

/-- On a response with a `set_header` method (synchronous or asynchronous),
the asynchronous loop body records every header through the setter, in order. -/
theorem applyAsync_setter_ok : ∀ (hs : List (String × String)) (r : Response),
    r.hasSetHeader = true →
    Secure.applyAsync hs r = .ok { r with setCalls := r.setCalls ++ hs }
  | [], r, _ => by simp [Secure.applyAsync]
  | (n, v) :: rest, r, hset => by
    obtain ⟨tn, hsh, sha, hha, hm, sc⟩ := r
    replace hset : hsh = true := hset
    subst hset
    have ih := applyAsync_setter_ok rest ⟨tn, true, sha, hha, hm, sc ++ [(n, v)]⟩ rfl
    simp [Secure.applyAsync, ih, List.append_assoc]

/-- On a response without `set_header` but with a `headers` mapping, the
synchronous loop body writes every header into the mapping, in order. -/
theorem applySync_mapping_ok : ∀ (hs : List (String × String)) (r : Response),
    r.hasSetHeader = false → r.hasHeadersAttr = true →
    Secure.applySync hs r =
      .ok { r with headers := hs.foldl (fun d p => dictInsert d p.1 p.2) r.headers }
  | [], r, _, _ => by simp [Secure.applySync]
  | (n, v) :: rest, r, hset, hmap => by
    obtain ⟨tn, hsh, sha, hha, hm, sc⟩ := r
    replace hset : hsh = false := hset
    replace hmap : hha = true := hmap
    subst hset
    subst hmap
    have ih := applySync_mapping_ok rest ⟨tn, false, sha, true, dictInsert hm n v, sc⟩ rfl rfl
    simp [Secure.applySync, ih]

/-- Same for the asynchronous loop body. -/
theorem applyAsync_mapping_ok : ∀ (hs : List (String × String)) (r : Response),
    r.hasSetHeader = false → r.hasHeadersAttr = true →
    Secure.applyAsync hs r =
      .ok { r with headers := hs.foldl (fun d p => dictInsert d p.1 p.2) r.headers }
  | [], r, _, _ => by simp [Secure.applyAsync]
  | (n, v) :: rest, r, hset, hmap => by
    obtain ⟨tn, hsh, sha, hha, hm, sc⟩ := r
    replace hset : hsh = false := hset
    replace hmap : hha = true := hmap
    subst hset
    subst hmap
    have ih := applyAsync_mapping_ok rest ⟨tn, false, sha, true, dictInsert hm n v, sc⟩ rfl rfl
    simp [Secure.applyAsync, ih]

/-- Every `set_headers` call fails at the `headers` property access: the
`cached_property` descriptor raises `TypeError` on a `__slots__` instance. -/
theorem set_headers_typeError (s : Secure) (r : Response) :
    s.set_headers r = .error (.typeError slotsCacheMsg) := rfl

/-- Same failure for the asynchronous entry point. -/
theorem set_headers_async_typeError (s : Secure) (r : Response) :
    s.set_headers_async r = .error (.typeError slotsCacheMsg) := rfl

/-- If a legacy `ContentSecurityPolicy` object occurs anywhere in the header
list, the `__str__` generator raises `AttributeError` for `header_name`. -/
theorem strLines_error_of_mem_csp (l : List HeaderObj) (c : ContentSecurityPolicy)
    (h : HeaderObj.csp c ∈ l) :
    Secure.strLines l = .error (.attributeError cspNoHeaderNameMsg) := by
  induction l with
  | nil => cases h
  | cons hd tl ih =>
    rcases List.mem_cons.mp h with h1 | h2
    · subst h1
      rfl
    · cases hd <;>
        simp [Secure.strLines, HeaderObj.headerNameE, HeaderObj.headerValueE, ih h2]

/-- Same for the dict-comprehension loop of the `headers` property body. -/
theorem renderLoop_error_of_mem_csp (l : List HeaderObj) (c : ContentSecurityPolicy)
    (h : HeaderObj.csp c ∈ l) :
    ∀ acc, Secure.renderLoop l acc = .error (.attributeError cspNoHeaderNameMsg) := by
  induction l with
  | nil => cases h
  | cons hd tl ih =>
    intro acc
    rcases List.mem_cons.mp h with h1 | h2
    · subst h1
      rfl
    · cases hd <;>
        simp [Secure.renderLoop, HeaderObj.headerNameE, HeaderObj.headerValueE, ih h2]

/-!## Claim theorems -/

/-- Claim C1, counterexample: on a response that exposes both a mutable
headers mapping and a synchronous set_header method, applying the headers
does not write them into the mapping: the entry point fails with TypeError
at the headers property access, and even the application loop routes the
header through set_header, leaving the mapping empty. -/
theorem claim1_counterexample :
    xaSecure.set_headers bothResponse = .error (.typeError slotsCacheMsg) ∧
    Secure.applySync [("X-A", "1")] bothResponse =
      .ok ⟨"MockResponseWithBoth", true, false, true, [], [("X-A", "1")]⟩ :=
  ⟨rfl, rfl⟩

/-- Claim C1, amended: the setter capability, not the mapping capability,
has priority: on every response exposing a synchronous set_header, the
application loops pass every header to set_header in order and leave the
mapping untouched; the mapping is written only when set_header is absent;
and both public entry points fail with TypeError at the headers property
access before applying anything. -/
theorem claim1_setter_priority (hs : List (String × String)) (r : Response)
    (hset : r.hasSetHeader = true) (hsync : r.setHeaderIsAsync = false) :
    Secure.applySync hs r = .ok { r with setCalls := r.setCalls ++ hs } ∧
    Secure.applyAsync hs r = .ok { r with setCalls := r.setCalls ++ hs } ∧
    (∀ (hs2 : List (String × String)) (r2 : Response),
      r2.hasSetHeader = false → r2.hasHeadersAttr = true →
      Secure.applySync hs2 r2 =
        .ok { r2 with headers := hs2.foldl (fun d p => dictInsert d p.1 p.2) r2.headers } ∧
      Secure.applyAsync hs2 r2 =
        .ok { r2 with headers := hs2.foldl (fun d p => dictInsert d p.1 p.2) r2.headers }) ∧
    (∀ (s : Secure) (r3 : Response),
      s.set_headers r3 = .error (.typeError slotsCacheMsg) ∧
      s.set_headers_async r3 = .error (.typeError slotsCacheMsg)) :=
  ⟨applySync_setter_ok hs r hset hsync, applyAsync_setter_ok hs r hset,
    fun hs2 r2 h1 h2 => ⟨applySync_mapping_ok hs2 r2 h1 h2, applyAsync_mapping_ok hs2 r2 h1 h2⟩,
    fun s r3 => ⟨set_headers_typeError s r3, set_headers_async_typeError s r3⟩⟩

/-- Claim C1, witness: the amended theorem applied to one header and the
both-capability response. -/
theorem claim1_setter_priority_witness :
    bothResponse.hasSetHeader = true ∧ bothResponse.setHeaderIsAsync = false ∧
    (Secure.applySync [("X-A", "1")] bothResponse =
        .ok { bothResponse with setCalls := bothResponse.setCalls ++ [("X-A", "1")] } ∧
      Secure.applyAsync [("X-A", "1")] bothResponse =
        .ok { bothResponse with setCalls := bothResponse.setCalls ++ [("X-A", "1")] } ∧
      (∀ (hs2 : List (String × String)) (r2 : Response),
        r2.hasSetHeader = false → r2.hasHeadersAttr = true →
        Secure.applySync hs2 r2 =
          .ok { r2 with headers := hs2.foldl (fun d p => dictInsert d p.1 p.2) r2.headers } ∧
        Secure.applyAsync hs2 r2 =
          .ok { r2 with headers := hs2.foldl (fun d p => dictInsert d p.1 p.2) r2.headers }) ∧
      (∀ (s : Secure) (r3 : Response),
        s.set_headers r3 = .error (.typeError slotsCacheMsg) ∧
        s.set_headers_async r3 = .error (.typeError slotsCacheMsg))) :=
  ⟨rfl, rfl, claim1_setter_priority [("X-A", "1")] bothResponse rfl rfl⟩

/-- Claim C2, code behavior at the failing input: both entry points raise
TypeError at the headers property access, instead of the documented
RuntimeError for the synchronous path and success for the asynchronous
path. The loop bodies themselves behave as the claim states: the
synchronous loop rejects a coroutine set_header with RuntimeError before
invoking it, and the asynchronous loop awaits it once per header in order. -/
theorem claim2_code_behavior :
    xaSecure.set_headers asyncResponse = .error (.typeError slotsCacheMsg) ∧
    xaSecure.set_headers_async asyncResponse = .error (.typeError slotsCacheMsg) ∧
    Secure.applySync [("X-A", "1")] asyncResponse = .error (.runtimeError syncViolationMsg) ∧
    Secure.applyAsync [("X-A", "1")] asyncResponse =
      .ok ⟨"MockResponseAsyncSetHeader", true, true, true, [], [("X-A", "1")]⟩ :=
  ⟨rfl, rfl, rfl, rfl⟩

/-- Claim C3, counterexample: `StrictTransportSecurity().max_age(-1)` does
not raise; it appends the directive and the builder renders `max-age=-1`. -/
theorem claim3_counterexample :
    StrictTransportSecurity.new.max_age (-1) =
      ⟨"Strict-Transport-Security", ["max-age=-1"], "max-age=31536000"⟩ ∧
    (StrictTransportSecurity.new.max_age (-1)).header_value = "max-age=-1" :=
  ⟨rfl, rfl⟩

/-- Claim C3, amended: `CacheControl().max_age(-1)` fails immediately with
`ValueError`; `max_age(0)` succeeds on both builders and renders
`max-age=0`; but `StrictTransportSecurity().max_age(-1)` performs no
validation and renders `max-age=-1`. -/
theorem claim3_amended :
    CacheControl.new.max_age (-1) =
      .error (.valueError "seconds must be a non-negative integer") ∧
    CacheControl.new.max_age 0 = .ok ⟨"Cache-Control", ["max-age=0"], "no-store"⟩ ∧
    (⟨"Cache-Control", ["max-age=0"], "no-store"⟩ : CacheControl).header_value =
      "max-age=0" ∧
    (StrictTransportSecurity.new.max_age 0).header_value = "max-age=0" ∧
    (StrictTransportSecurity.new.max_age (-1)).header_value = "max-age=-1" :=
  ⟨rfl, rfl, rfl, rfl, rfl⟩

/-- Claim C4, code behavior: `from_preset(STRICT)` configures HSTS with
`max_age(31536000)` (rendering `max-age=31536000; includeSubDomains;
preload`, not the documented 63072000 value) and a CSP whose value is
exactly `default-src \x27self\x27` with no base-uri or frame-ancestors
entry; the X-Frame-Options and Referrer-Policy values match the claim, as
do the `from_preset(BASIC)` values. -/
theorem claim4_code_behavior :
    (Secure.from_preset .strict).headers_list =
      [.hsts ⟨"Strict-Transport-Security",
          ["max-age=31536000", "includeSubDomains", "preload"], "max-age=31536000"⟩,
        .xfo ⟨"X-Frame-Options", "DENY"⟩,
        .csp ⟨["default-src \x27self\x27"], "Content-Security-Policy",
          "default-src \x27self\x27"⟩,
        .referrer ⟨"Referrer-Policy", ["no-referrer"], "strict-origin-when-cross-origin"⟩] ∧
    (⟨"Strict-Transport-Security", ["max-age=31536000", "includeSubDomains", "preload"],
        "max-age=31536000"⟩ : StrictTransportSecurity).header_value =
      "max-age=31536000; includeSubDomains; preload" ∧
    (⟨"X-Frame-Options", "DENY"⟩ : XFrameOptions).header_value = "DENY" ∧
    (⟨"Referrer-Policy", ["no-referrer"], "strict-origin-when-cross-origin"⟩ :
        ReferrerPolicy).header_value = "no-referrer" ∧
    (⟨["default-src \x27self\x27"], "Content-Security-Policy", "default-src \x27self\x27"⟩ :
        ContentSecurityPolicy).value = "default-src \x27self\x27" ∧
    (Secure.from_preset .basic).headers_list =
      [.hsts ⟨"Strict-Transport-Security", ["max-age=63072000"], "max-age=31536000"⟩,
        .xfo ⟨"X-Frame-Options", "SAMEORIGIN"⟩,
        .referrer ⟨"Referrer-Policy", ["no-referrer-when-downgrade"],
          "strict-origin-when-cross-origin"⟩] ∧
    (⟨"Strict-Transport-Security", ["max-age=63072000"], "max-age=31536000"⟩ :
        StrictTransportSecurity).header_value = "max-age=63072000" ∧
    (⟨"X-Frame-Options", "SAMEORIGIN"⟩ : XFrameOptions).header_value = "SAMEORIGIN" :=
  ⟨rfl, rfl, rfl, rfl, rfl, rfl, rfl, rfl⟩

/-- Claim C5, code behavior: the constructor collects headers in the order
(server, hsts, xfo, content, csp, referrer, cache, permissions, coop,
ceop), so at the input of the test `test_headers_list_property` the Server
builder precedes the Content-Security-Policy builder (the test, like the
claim, expects the opposite); custom headers do follow the well-known ones
in the order supplied, as the rendering of the hsts/xfo/custom aggregator
shows, and Server renders before Cache-Control. -/
theorem claim5_code_behavior :
    serverCspCustomSecure.headers_list =
      [.server ⟨"Server", "CustomServer"⟩, .csp cspSelf,
        .custom ⟨"X-Test-Header", "TestValue"⟩] ∧
    hstsXfoCustomSecure.strE =
      .ok "Strict-Transport-Security: max-age=63072000\nX-Frame-Options: DENY\nX-A: 1\nX-B: 2" ∧
    hstsXfoCustomSecure.renderHeaders =
      .ok [("Strict-Transport-Security", "max-age=63072000"), ("X-Frame-Options", "DENY"),
        ("X-A", "1"), ("X-B", "2")] ∧
    serverCacheSecure.strE = .ok "Server: \nCache-Control: no-store" :=
  ⟨rfl, rfl, rfl, rfl⟩

/-- Claim C6, counterexample: `ReferrerPolicy().origin().set("unsafe-url")`
renders `origin, unsafe-url`, not `unsafe-url`, and the legacy
`ContentSecurityPolicy` set likewise appends instead of replacing. -/
theorem claim6_counterexample :
    (ReferrerPolicy.new.origin.set "unsafe-url").header_value = "origin, unsafe-url" ∧
    (cspSelf.set "default-src \x27none\x27").value =
      "default-src \x27self\x27; default-src \x27none\x27" :=
  ⟨rfl, rfl⟩

/-- Claim C6, amended: set replaces the directive state and renders exactly
the given value for CacheControl, StrictTransportSecurity, XFrameOptions,
XContentTypeOptions, Server, CrossOriginOpenerPolicy,
CrossOriginEmbedderPolicy and CustomHeader. For ReferrerPolicy, set
delegates to the duplicate-suppressing build: the value is appended as one
more directive unless an equal directive is already present, in which case
the call changes nothing. For the legacy ContentSecurityPolicy, set always
appends the value as one more policy entry and re-renders the value string
as the semicolon-join of the whole policy. For PermissionsPolicy, set
always appends the value rendered as `value=()`. The concrete instances
illustrate each appending case, including the ReferrerPolicy no-op on a
duplicate. -/
theorem claim6_amended :
    (∀ (c : CacheControl) (v : String), (c.set v).header_value = v) ∧
    (∀ (h : StrictTransportSecurity) (v : String), (h.set v).header_value = v) ∧
    (∀ (x : XFrameOptions) (v : String), (x.set v).header_value = v) ∧
    (∀ (x : XContentTypeOptions) (v : String), (x.set v).header_value = v) ∧
    (∀ (s : Server) (v : String), (s.set v).header_value = v) ∧
    (∀ (c : CrossOriginOpenerPolicy) (v : String), (c.set v).header_value = v) ∧
    (∀ (c : CrossOriginEmbedderPolicy) (v : String), (c.set v).header_value = v) ∧
    (∀ (c : CustomHeader) (v : String), (c.set v).header_value = v) ∧
    (∀ (r : ReferrerPolicy) (v : String),
      (r.set v)._directives =
        if v ∈ r._directives then r._directives else r._directives ++ [v]) ∧
    (∀ (c : ContentSecurityPolicy) (v : String),
      (c.set v).policy = c.policy ++ [v] ∧
      (c.set v).value = joinSep "; " (c.policy ++ [v])) ∧
    (∀ (p : PermissionsPolicy) (v : String),
      (p.set v)._directives = p._directives ++ [v ++ "=()"]) ∧
    (ReferrerPolicy.new.origin.set "unsafe-url").header_value = "origin, unsafe-url" ∧
    (ReferrerPolicy.new.origin.set "origin").header_value = "origin" ∧
    (cspSelf.set "default-src \x27none\x27").value =
      "default-src \x27self\x27; default-src \x27none\x27" ∧
    (PermissionsPolicy.new.set "fullscreen=(self)").header_value = "fullscreen=(self)=()" :=
  ⟨fun _ _ => rfl, fun _ _ => rfl, fun _ _ => rfl, fun _ _ => rfl, fun _ _ => rfl,
    fun _ _ => rfl, fun _ _ => rfl, fun _ _ => rfl,
    fun r v => by
      by_cases h : v ∈ r._directives <;>
        simp [ReferrerPolicy.set, ReferrerPolicy.build, h],
    fun c v => ⟨rfl, rfl⟩,
    fun p v => by
      simp [PermissionsPolicy.set, PermissionsPolicy.build, joinSep, String.append_assoc],
    rfl, rfl, rfl, rfl⟩

/-- Claim C7, counterexample: the legacy ContentSecurityPolicy defines no
clear method, so calling clear on it raises AttributeError instead of
reverting to the default. -/
theorem claim7_counterexample :
    HeaderObj.clearE (.csp cspSelf) = .error (.attributeError cspNoClearMsg) :=
  rfl

/-- Claim C7, amended: for every builder that defines clear (CacheControl,
StrictTransportSecurity, ReferrerPolicy, PermissionsPolicy, XFrameOptions,
XContentTypeOptions, Server, CrossOriginOpenerPolicy,
CrossOriginEmbedderPolicy) clearing after any directives renders the same
value as a fresh builder; the legacy ContentSecurityPolicy and CustomHeader
define no clear method, and the call raises AttributeError. -/
theorem claim7_amended :
    (∀ ds : List String,
      (⟨"Cache-Control", ds, "no-store"⟩ : CacheControl).clear.header_value =
        CacheControl.new.header_value) ∧
    (∀ ds : List String,
      (⟨"Strict-Transport-Security", ds, "max-age=31536000"⟩ :
        StrictTransportSecurity).clear.header_value =
        StrictTransportSecurity.new.header_value) ∧
    (∀ ds : List String,
      (⟨"Referrer-Policy", ds, "strict-origin-when-cross-origin"⟩ :
        ReferrerPolicy).clear.header_value = ReferrerPolicy.new.header_value) ∧
    (∀ ds : List String,
      (⟨"Permissions-Policy", ds, "geolocation=(), microphone=(), camera=()"⟩ :
        PermissionsPolicy).clear.header_value = PermissionsPolicy.new.header_value) ∧
    (∀ x : XFrameOptions, x.clear.header_value = XFrameOptions.new.header_value) ∧
    (∀ x : XContentTypeOptions, x.clear.header_value = XContentTypeOptions.new.header_value) ∧
    (∀ s : Server, s.clear.header_value = Server.new.header_value) ∧
    (∀ c : CrossOriginOpenerPolicy,
      c.clear.header_value = CrossOriginOpenerPolicy.new.header_value) ∧
    (∀ c : CrossOriginEmbedderPolicy,
      c.clear.header_value = CrossOriginEmbedderPolicy.new.header_value) ∧
    HeaderObj.clearE (.csp ContentSecurityPolicy.new) =
      .error (.attributeError cspNoClearMsg) ∧
    HeaderObj.clearE (.custom ⟨"X-A", "1"⟩) = .error (.attributeError customNoClearMsg) :=
  ⟨fun _ => rfl, fun _ => rfl, fun _ => rfl, fun _ => rfl, fun _ => rfl, fun _ => rfl,
    fun _ => rfl, fun _ => rfl, fun _ => rfl, rfl, rfl⟩

/-- Claim C8, code behavior at the failing input: every access to the
headers property raises TypeError, because the cached_property descriptor
has no instance `__dict__` to cache into on the `__slots__` class, even
though the property body itself would render the mapping. -/
theorem claim8_code_behavior :
    xaSecure.headersProp = .error (.typeError slotsCacheMsg) ∧
    xaSecure.renderHeaders = .ok [("X-A", "1")] ∧
    Secure.with_default_headers.headersProp = .error (.typeError slotsCacheMsg) :=
  ⟨rfl, rfl, rfl⟩

/-- Claim C9, code behavior at the failing input: applying a one-header
aggregator to a bare object raises TypeError at the headers property
access, before the capability check; the loop body itself would have
raised the documented AttributeError naming the concrete type. -/
theorem claim9_code_behavior :
    xaSecure.set_headers bareResponse = .error (.typeError slotsCacheMsg) ∧
    Secure.applySync [("X-A", "1")] bareResponse =
      .error (.attributeError (unsupportedMsg "object")) ∧
    unsupportedMsg "object" =
      "Response object of type \x27object\x27 does not support setting headers." :=
  ⟨rfl, rfl, rfl⟩

/-- Claim C10, counterexample: accessing the headers mapping of the STRICT
preset aggregator raises TypeError at the cached_property descriptor, not
the AttributeError the claim names. -/
theorem claim10_counterexample :
    (Secure.from_preset .strict).headersProp = .error (.typeError slotsCacheMsg) :=
  rfl

/-- Claim C10, amended: the ContentSecurityPolicy class exported by the
headers package exposes `header` and `value` rather than `header_name` and
`header_value`, so for every aggregator containing one, the string
rendering raises AttributeError, and the render of the mapping would raise
AttributeError as well; the headers property access itself raises
TypeError first, due to the `__slots__` and cached_property conflict. -/
theorem claim10_amended (s : Secure) (c : ContentSecurityPolicy)
    (h : HeaderObj.csp c ∈ s.headers_list) :
    s.strE = .error (.attributeError cspNoHeaderNameMsg) ∧
    s.renderHeaders = .error (.attributeError cspNoHeaderNameMsg) ∧
    s.headersProp = .error (.typeError slotsCacheMsg) ∧
    HeaderObj.headerNameE (.csp c) = .error (.attributeError cspNoHeaderNameMsg) ∧
    HeaderObj.headerValueE (.csp c) = .error (.attributeError cspNoHeaderValueMsg) := by
  refine ⟨?_, ?_, rfl, rfl, rfl⟩
  · simp only [Secure.strE, strLines_error_of_mem_csp s.headers_list c h]
  · exact renderLoop_error_of_mem_csp s.headers_list c h []

/-- Claim C10, witness: the amended theorem applied to the default-headers
aggregator, whose list contains a legacy ContentSecurityPolicy instance. -/
theorem claim10_amended_witness :
    HeaderObj.csp cspSelf ∈ Secure.with_default_headers.headers_list ∧
    (Secure.with_default_headers.strE = .error (.attributeError cspNoHeaderNameMsg) ∧
      Secure.with_default_headers.renderHeaders =
        .error (.attributeError cspNoHeaderNameMsg) ∧
      Secure.with_default_headers.headersProp = .error (.typeError slotsCacheMsg) ∧
      HeaderObj.headerNameE (.csp cspSelf) = .error (.attributeError cspNoHeaderNameMsg) ∧
      HeaderObj.headerValueE (.csp cspSelf) =
        .error (.attributeError cspNoHeaderValueMsg)) :=
  ⟨by decide, claim10_amended Secure.with_default_headers cspSelf (by decide)⟩

end SecureHeaders
